/-
Verification of the `pulling_data_local` extraction/archival utility
(`src/main.py`) against its natural-language specification.

The Python program is shallowly embedded as Lean functions:
pure helpers become Lean functions; operations touching the outside
world (the config file, the PostgreSQL connection, the filesystem) are
modelled by explicit environment records that say what the outside
world would answer, and the functions return their result together
with the resulting filesystem state and the trace of logging / I/O
events they perform.  Python exceptions become `Except`; a Python
function that may return `None` becomes `Option`.
-/
import Mathlib

set_option autoImplicit false

namespace PullingData

/-! ## Errors raised by the Python code

`configNotFound` models the `FileNotFoundError` raised by `db_config`,
`configInvalid` the `ValueError` raised by `db_config`, and `fsError`
any `OSError` escaping `os.makedirs` / `open` / `pickle.dump` in
`save_data_to_nested_folders`. -/

inductive PyError where
  | configNotFound
  | configInvalid
  | fsError
deriving DecidableEq, Repr

/-! ## Configuration loader (`db_config`, main.py lines 40-61)

The JSON config file is abstracted as: does the path exist, and which
key/value entries does the parsed JSON object hold. -/

/-- The connection-parameter mapping parsed from JSON: key/value pairs. -/
abbrev Params := List (String × String)

/-- Abstraction of the file at the config path: whether it exists and,
if so, the key/value entries of the parsed JSON object. -/
structure ConfigFile where
  pathExists : Bool
  entries : Params
deriving DecidableEq, Repr

/-- The required keys checked by `db_config`
(`{"host", "port", "dbname", "user", "password"}`). -/
def requiredKeys : List String := ["host", "port", "dbname", "user", "password"]

/-- Does the parsed mapping contain key `k`? (`k in params.keys()`). -/
def hasKey (ps : Params) (k : String) : Bool := ps.any (fun p => p.1 == k)

/-- Embedding of `db_config(config_file)`: raises `FileNotFoundError`
when the path does not exist, raises `ValueError` when any required key
is missing from the parsed JSON, and otherwise returns the parsed
mapping verbatim. -/
def db_config (cf : ConfigFile) : Except PyError Params :=
  if cf.pathExists = false then
    Except.error PyError.configNotFound
  else if requiredKeys.any (fun k => !(hasKey cf.entries k)) then
    Except.error PyError.configInvalid
  else
    Except.ok cf.entries

/-- Claim C8: the configuration loader fails with `ConfigNotFound`
exactly when the path does not exist; when the path exists it fails
with `ConfigInvalid` exactly when one of {host, port, dbname, user,
password} is absent from the parsed structure; and otherwise it returns
the connection parameters (the parsed mapping, verbatim).  The
embedding `db_config` is a pure function: it has no side effects. -/
theorem db_config_error_spec (cf : ConfigFile) :
    (db_config cf = Except.error PyError.configNotFound ↔ cf.pathExists = false)
    ∧ (cf.pathExists = true →
        (db_config cf = Except.error PyError.configInvalid ↔
          ∃ k ∈ requiredKeys, hasKey cf.entries k = false))
    ∧ (cf.pathExists = true → (∀ k ∈ requiredKeys, hasKey cf.entries k = true) →
        db_config cf = Except.ok cf.entries) := by
  cases hpe : cf.pathExists with
  | false =>
    exact ⟨by simp [db_config, hpe], by simp [hpe], by simp [hpe]⟩
  | true =>
    cases hany : requiredKeys.any (fun k => !(hasKey cf.entries k)) with
    | true =>
      refine ⟨by simp [db_config, hpe, hany], ?_, ?_⟩
      · intro _
        constructor
        · intro _
          rw [List.any_eq_true] at hany
          obtain ⟨k, hk, hneg⟩ := hany
          exact ⟨k, hk, by simpa using hneg⟩
        · intro _
          simp [db_config, hpe, hany]
      · intro _ hall
        exfalso
        rw [List.any_eq_true] at hany
        obtain ⟨k, hk, hneg⟩ := hany
        have := hall k hk
        simp [this] at hneg
    | false =>
      refine ⟨by simp [db_config, hpe, hany], ?_, ?_⟩
      · intro _
        constructor
        · intro h
          simp [db_config, hpe, hany] at h
        · intro ⟨k, hk, hmiss⟩
          rw [List.any_eq_false] at hany
          have := hany k hk
          simp [hmiss] at this
      · intro _ _
        simp [db_config, hpe, hany]

/-- Witness for C8 at a concrete config file: a file missing
`password` is rejected as invalid. -/
theorem db_config_error_spec_witness :
    db_config ⟨true, [("host", "h"), ("port", "5432"), ("dbname", "d"), ("user", "u")]⟩
      = Except.error PyError.configInvalid :=
  ((db_config_error_spec
      ⟨true, [("host", "h"), ("port", "5432"), ("dbname", "d"), ("user", "u")]⟩).2.1
    rfl).mpr ⟨"password", by decide, by decide⟩

/-- Claim C10: the loader validates only the presence of the five
required keys and returns the entire parsed mapping verbatim; a config
file with extra keys beyond the required five is accepted and the extra
entries are passed through unchanged in the returned parameters. -/
theorem db_config_extra_keys_pass_through (cf : ConfigFile)
    (hex : cf.pathExists = true)
    (hall : ∀ k ∈ requiredKeys, hasKey cf.entries k = true) :
    db_config cf = Except.ok cf.entries
    ∧ ∀ p ∈ cf.entries, p.1 ∉ requiredKeys →
        ∃ ps, db_config cf = Except.ok ps ∧ p ∈ ps := by
  have hok : db_config cf = Except.ok cf.entries := by
    have : requiredKeys.any (fun k => !(hasKey cf.entries k)) = false := by
      rw [List.any_eq_false]
      intro k hk
      simp [hall k hk]
    simp [db_config, hex, this]
  exact ⟨hok, fun p hp _ => ⟨cf.entries, hok, hp⟩⟩

/-- Witness for C10 at a concrete config file carrying the extra key
`sslmode`: it is accepted and the extra entry survives in the output. -/
theorem db_config_extra_keys_pass_through_witness :
    db_config ⟨true, [("host", "h"), ("port", "5432"), ("dbname", "d"),
        ("user", "u"), ("password", "p"), ("sslmode", "require")]⟩
      = Except.ok [("host", "h"), ("port", "5432"), ("dbname", "d"),
        ("user", "u"), ("password", "p"), ("sslmode", "require")] :=
  (db_config_extra_keys_pass_through
    ⟨true, [("host", "h"), ("port", "5432"), ("dbname", "d"),
        ("user", "u"), ("password", "p"), ("sslmode", "require")]⟩
    rfl (by decide)).1

/-! ## Query builder and its selection semantics
(`fetch_and_save_data`, main.py lines 167-175)

The f-string query
`SELECT * FROM bitstamp_data WHERE symbol = '{symbol}' AND timeframe =
'{timeframe}' AND epoch_open_time >= {start_ns} AND epoch_open_time <
{end_ns} ORDER BY epoch_open_time ASC`
is embedded as a `Query` record holding the interpolated values, and
`runQuery` gives the SQL selection semantics of that statement over the
logical table, modelled as a list of rows. -/

/-- A row of the `bitstamp_data` table: the three columns the query
constrains, plus the remaining columns carried verbatim. -/
structure Row where
  symbol : String
  timeframe : String
  epoch_open_time : Int
  rest : List String
deriving DecidableEq, Repr

/-- The query built by `fetch_and_save_data`: the fixed table name and
the four interpolated values. -/
structure Query where
  table : String
  symbol : String
  timeframe : String
  start_ns : Int
  end_ns : Int
deriving DecidableEq, Repr

/-- Building the query string of main.py lines 167-175: the table is
fixed to `bitstamp_data` and the four parameters are interpolated. -/
def mkQuery (symbol timeframe : String) (start_ns end_ns : Int) : Query :=
  ⟨"bitstamp_data", symbol, timeframe, start_ns, end_ns⟩

/-- The `WHERE` clause of the built query, evaluated on one row. -/
def rowMatches (q : Query) (r : Row) : Bool :=
  r.symbol == q.symbol && r.timeframe == q.timeframe
    && decide (q.start_ns ≤ r.epoch_open_time)
    && decide (r.epoch_open_time < q.end_ns)

/-- The comparison of the `ORDER BY epoch_open_time ASC` clause. -/
def openTimeLe (a b : Row) : Bool := decide (a.epoch_open_time ≤ b.epoch_open_time)

/-- SQL semantics of the built `SELECT`: keep the rows satisfying the
`WHERE` clause and order them ascending by `epoch_open_time`. -/
def runQuery (q : Query) (table : List Row) : List Row :=
  List.mergeSort (table.filter (rowMatches q)) openTimeLe

/-- Claim C1: for every symbol `S`, timeframe `T` and nanosecond bounds
`s < e`, the query built by `fetch_and_save_data` selects exactly the
rows of `bitstamp_data` satisfying
`symbol == S AND timeframe == T AND s <= epoch_open_time < e`
(half-open interval), ordered ascending by `epoch_open_time`. -/
theorem query_selects_half_open_interval (S T : String) (s e : Int)
    (_hlt : s < e) (table : List Row) :
    (∀ r : Row, r ∈ runQuery (mkQuery S T s e) table ↔
        r ∈ table ∧ r.symbol = S ∧ r.timeframe = T
          ∧ s ≤ r.epoch_open_time ∧ r.epoch_open_time < e)
    ∧ List.Pairwise (fun a b : Row => a.epoch_open_time ≤ b.epoch_open_time)
        (runQuery (mkQuery S T s e) table) := by
  constructor
  · intro r
    rw [runQuery, (List.mergeSort_perm (table.filter (rowMatches (mkQuery S T s e))) openTimeLe).mem_iff,
      List.mem_filter]
    simp only [rowMatches, mkQuery, Bool.and_eq_true, beq_iff_eq, decide_eq_true_eq]
    tauto
  · have hs := @List.sorted_mergeSort Row openTimeLe
      (fun a b c hab hbc => by
        simp only [openTimeLe, decide_eq_true_eq] at hab hbc ⊢
        exact le_trans hab hbc)
      (fun a b : Row => by
        simp only [openTimeLe, Bool.or_eq_true, decide_eq_true_eq]
        exact le_total a.epoch_open_time b.epoch_open_time)
      (table.filter (rowMatches (mkQuery S T s e)))
    exact hs.imp (by simp [openTimeLe])

/-- Witness for C1 at a concrete table: with bounds `[10, 20)` only the
matching in-range row is selected. -/
theorem query_selects_half_open_interval_witness :
    (Row.mk "BTCUSD" "1m" 10 [] ∈
        runQuery (mkQuery "BTCUSD" "1m" 10 20)
          [⟨"BTCUSD", "1m", 20, []⟩, ⟨"BTCUSD", "1m", 10, []⟩, ⟨"ETHUSD", "1m", 15, []⟩])
    ∧ ¬ (Row.mk "BTCUSD" "1m" 20 [] ∈
        runQuery (mkQuery "BTCUSD" "1m" 10 20)
          [⟨"BTCUSD", "1m", 20, []⟩, ⟨"BTCUSD", "1m", 10, []⟩, ⟨"ETHUSD", "1m", 15, []⟩]) := by
  have h := query_selects_half_open_interval "BTCUSD" "1m" 10 20 (by decide)
    [⟨"BTCUSD", "1m", 20, []⟩, ⟨"BTCUSD", "1m", 10, []⟩, ⟨"ETHUSD", "1m", 15, []⟩]
  constructor
  · exact (h.1 ⟨"BTCUSD", "1m", 10, []⟩).mpr (by simp)
  · intro hmem
    have := (h.1 ⟨"BTCUSD", "1m", 20, []⟩).mp hmem
    simp at this

/-! ## Timestamp rendering and archival path derivation
(`save_data_to_nested_folders`, main.py lines 107-115)

`start_dt.strftime("%Y-%m-%d_%H-%M-%S")` renders each field as a
zero-padded decimal number; `os.path.join` joins the path segments with
`/`. -/

/-- The decimal digit character for `d % 10`. -/
def digitChar (d : Nat) : Char := Char.ofNat (48 + d % 10)

/-- The decimal digits of `n`, most significant first. -/
def natDigits (n : Nat) : List Char :=
  if _h : n < 10 then [digitChar n]
  else natDigits (n / 10) ++ [digitChar (n % 10)]
termination_by n
decreasing_by exact Nat.div_lt_self (by omega) (by omega)

/-- Zero-pad a character string on the left to width `w`
(the behaviour of `strftime`'s `%Y`, `%m`, …, directives). -/
def padZero (w : Nat) (cs : List Char) : List Char :=
  List.replicate (w - cs.length) '0' ++ cs

/-- `n` rendered as a decimal number zero-padded to width `w`. -/
def natPad (w n : Nat) : List Char := padZero w (natDigits n)

/-- A naive (timezone-free) `datetime` value, as produced by
`datetime.utcfromtimestamp` / `datetime.fromisoformat`. -/
structure DateTime where
  year : Nat
  month : Nat
  day : Nat
  hour : Nat
  minute : Nat
  second : Nat
deriving DecidableEq, Repr

/-- Characters of `dt.strftime("%Y-%m-%d_%H-%M-%S")`. -/
def formatTimestampChars (dt : DateTime) : List Char :=
  natPad 4 dt.year ++ ['-'] ++ natPad 2 dt.month ++ ['-'] ++ natPad 2 dt.day
    ++ ['_'] ++ natPad 2 dt.hour ++ ['-'] ++ natPad 2 dt.minute
    ++ ['-'] ++ natPad 2 dt.second

/-- `dt.strftime("%Y-%m-%d_%H-%M-%S")`: the filesystem-safe timestamp
string used in the archive file name. -/
def formatTimestamp (dt : DateTime) : String := String.mk (formatTimestampChars dt)

/-- `os.path.join(data_root, symbol, broker, timeframe)`. -/
def derive_folder_path (data_root symbol broker timeframe : String) : String :=
  data_root ++ "/" ++ symbol ++ "/" ++ broker ++ "/" ++ timeframe

/-- The full archive file path:
`os.path.join(folder_path, f"{start_str}_{end_str}.pkl")`. -/
def derive_file_path (data_root symbol broker timeframe : String)
    (start_dt end_dt : DateTime) : String :=
  derive_folder_path data_root symbol broker timeframe ++ "/"
    ++ formatTimestamp start_dt ++ "_" ++ formatTimestamp end_dt ++ ".pkl"

/-- Every character produced by `natDigits` is a decimal digit. -/
theorem natDigits_mem_digit (n : Nat) :
    ∀ c ∈ natDigits n, ∃ k, k < 10 ∧ c = digitChar k := by
  induction n using Nat.strong_induction_on with
  | _ n ih =>
    rw [natDigits]
    split
    · rename_i hlt10
      intro c hc
      rw [List.mem_singleton] at hc
      exact ⟨n, hlt10, hc⟩
    · intro c hc
      rw [List.mem_append] at hc
      rcases hc with h1 | h1
      · exact ih (n / 10) (Nat.div_lt_self (by omega) (by omega)) c h1
      · rw [List.mem_singleton] at h1
        exact ⟨n % 10, Nat.mod_lt _ (by omega), h1⟩

/-- No decimal digit character is a colon. -/
theorem digitChar_ne_colon (d : Nat) : digitChar d ≠ ':' := by
  have hb : ∀ k, k < 10 → Char.ofNat (48 + k) ≠ ':' := by decide
  exact hb (d % 10) (Nat.mod_lt _ (by omega))

/-- No character of a rendered timestamp is a colon. -/
theorem formatTimestamp_no_colon (dt : DateTime) :
    ∀ c ∈ (formatTimestamp dt).data, c ≠ ':' := by
  have hpad : ∀ w n : Nat, ∀ c ∈ natPad w n, c ≠ ':' := by
    intro w n c hc
    rw [natPad, padZero, List.mem_append] at hc
    rcases hc with h1 | h1
    · rw [List.eq_of_mem_replicate h1]
      decide
    · obtain ⟨k, _, hk⟩ := natDigits_mem_digit n c h1
      rw [hk]
      exact digitChar_ne_colon k
  intro c hc
  have hc2 : c ∈ formatTimestampChars dt := hc
  rw [formatTimestampChars] at hc2
  simp only [List.append_assoc, List.mem_append, List.mem_singleton] at hc2
  rcases hc2 with h | h | h | h | h | h | h | h | h | h | h
  all_goals first
    | (exact hpad _ _ c h)
    | (rw [h]; decide)

/-- Claim C5: the archival path derivation is a pure deterministic
function of (data root, symbol, source, timeframe, start, end): two
calls on identical inputs give identical strings; the path has the form
`<root>/<symbol>/<source>/<timeframe>/<start>_<end>.pkl` with the
timestamps rendered as `YYYY-MM-DD_HH-MM-SS`; and the rendered
timestamp segments contain no colons. -/
theorem derive_file_path_pure_deterministic
    (data_root symbol broker timeframe : String) (start_dt end_dt : DateTime) :
    derive_file_path data_root symbol broker timeframe start_dt end_dt
        = derive_file_path data_root symbol broker timeframe start_dt end_dt
    ∧ derive_file_path data_root symbol broker timeframe start_dt end_dt
        = data_root ++ "/" ++ symbol ++ "/" ++ broker ++ "/" ++ timeframe ++ "/"
            ++ formatTimestamp start_dt ++ "_" ++ formatTimestamp end_dt ++ ".pkl"
    ∧ (∀ c ∈ (formatTimestamp start_dt).data, c ≠ ':')
    ∧ (∀ c ∈ (formatTimestamp end_dt).data, c ≠ ':') :=
  ⟨rfl, rfl, formatTimestamp_no_colon start_dt, formatTimestamp_no_colon end_dt⟩

/-! ## Filesystem model and the persistence writer
(`save_data_to_nested_folders`, main.py lines 93-125)

The filesystem is a set of existing directories plus a mapping from
paths to stored contents; `ok = false` means filesystem operations
fail (disk full, permission denied), in which case the raised `OSError`
escapes `save_data_to_nested_folders` uncaught. -/

/-- A DataFrame is modelled by its list of rows. -/
abbrev DataFrame := List Row

/-- Filesystem state: which directories and files exist, and whether
filesystem operations currently succeed. -/
structure FS where
  ok : Bool
  dirs : List String
  files : List (String × DataFrame)
deriving DecidableEq, Repr

/-- The contents stored at path `p`, if a file exists there. -/
def FS.readFile (fs : FS) (p : String) : Option DataFrame :=
  (fs.files.find? (fun q => q.1 == p)).map (fun q => q.2)

/-- The chain of directories `os.makedirs(folder_path, exist_ok=True)`
creates when missing: the data root, then each nested level down to the
timeframe folder. -/
def ancestorDirs (data_root symbol broker timeframe : String) : List String :=
  [data_root,
   data_root ++ "/" ++ symbol,
   data_root ++ "/" ++ symbol ++ "/" ++ broker,
   derive_folder_path data_root symbol broker timeframe]

/-- Embedding of `save_data_to_nested_folders`: renders the two
timestamps, creates the missing directories of the nested folder path,
and writes the pickled DataFrame at the derived file path, replacing
any file already there.  When the filesystem fails, the `OSError`
propagates (no handler in the source). -/
def save_data_to_nested_folders (fs : FS) (df : DataFrame)
    (data_root symbol broker timeframe : String)
    (start_dt end_dt : DateTime) : Except PyError (FS × String) :=
  if fs.ok = false then
    Except.error PyError.fsError
  else
    let dirsAdded := (ancestorDirs data_root symbol broker timeframe).filter
      (fun d => !(fs.dirs.contains d))
    let file_path := derive_file_path data_root symbol broker timeframe start_dt end_dt
    Except.ok
      ({ fs with
          dirs := fs.dirs ++ dirsAdded,
          files := (file_path, df) :: fs.files.filter (fun q => !(q.1 == file_path)) },
        file_path)

/-- Claim C9: on a working filesystem the persistence writer creates
every missing intermediate directory, writes the serialized table at
the derived path overwriting any existing file there; on a failing
filesystem the error propagates to the caller as fatal (an `error`
result, never converted into a soft `ok`). -/
theorem save_creates_dirs_writes_and_propagates (fs : FS) (df : DataFrame)
    (data_root symbol broker timeframe : String) (start_dt end_dt : DateTime) :
    (fs.ok = true →
      ∃ fs₂, save_data_to_nested_folders fs df data_root symbol broker timeframe start_dt end_dt
          = Except.ok (fs₂, derive_file_path data_root symbol broker timeframe start_dt end_dt)
        ∧ (∀ d ∈ ancestorDirs data_root symbol broker timeframe, d ∈ fs₂.dirs)
        ∧ fs₂.readFile (derive_file_path data_root symbol broker timeframe start_dt end_dt)
            = some df)
    ∧ (fs.ok = false →
      save_data_to_nested_folders fs df data_root symbol broker timeframe start_dt end_dt
          = Except.error PyError.fsError) := by
  constructor
  · intro hok
    refine ⟨{ fs with
        dirs := fs.dirs ++ (ancestorDirs data_root symbol broker timeframe).filter
          (fun d => !(fs.dirs.contains d)),
        files := (derive_file_path data_root symbol broker timeframe start_dt end_dt, df)
          :: fs.files.filter
              (fun q => !(q.1 == derive_file_path data_root symbol broker timeframe start_dt end_dt)) },
      ?_, ?_, ?_⟩
    · simp [save_data_to_nested_folders, hok]
    · intro d hd
      simp only [List.mem_append, List.mem_filter]
      by_cases hmem : d ∈ fs.dirs
      · exact Or.inl hmem
      · refine Or.inr ⟨hd, ?_⟩
        simpa using hmem
    · simp [FS.readFile]
  · intro hfail
    simp [save_data_to_nested_folders, hfail]

/-- Witness for C9 at a concrete filesystem: saving one row on an empty
working filesystem creates the nested directories and stores the row;
on a failing filesystem the error propagates. -/
theorem save_creates_dirs_writes_and_propagates_witness :
    (∃ fs₂, save_data_to_nested_folders ⟨true, [], []⟩ [⟨"BTCUSD", "1m", 10, []⟩]
          "data" "BTCUSD" "bitstamp" "1m" ⟨2018, 7, 14, 7, 30, 0⟩ ⟨2018, 7, 14, 7, 40, 0⟩
        = Except.ok (fs₂, derive_file_path "data" "BTCUSD" "bitstamp" "1m"
            ⟨2018, 7, 14, 7, 30, 0⟩ ⟨2018, 7, 14, 7, 40, 0⟩)
      ∧ (∀ d ∈ ancestorDirs "data" "BTCUSD" "bitstamp" "1m", d ∈ fs₂.dirs)
      ∧ fs₂.readFile (derive_file_path "data" "BTCUSD" "bitstamp" "1m"
            ⟨2018, 7, 14, 7, 30, 0⟩ ⟨2018, 7, 14, 7, 40, 0⟩)
          = some [⟨"BTCUSD", "1m", 10, []⟩])
    ∧ save_data_to_nested_folders ⟨false, [], []⟩ [⟨"BTCUSD", "1m", 10, []⟩]
          "data" "BTCUSD" "bitstamp" "1m" ⟨2018, 7, 14, 7, 30, 0⟩ ⟨2018, 7, 14, 7, 40, 0⟩
        = Except.error PyError.fsError :=
  ⟨(save_creates_dirs_writes_and_propagates ⟨true, [], []⟩ [⟨"BTCUSD", "1m", 10, []⟩]
      "data" "BTCUSD" "bitstamp" "1m" ⟨2018, 7, 14, 7, 30, 0⟩ ⟨2018, 7, 14, 7, 40, 0⟩).1 rfl,
   (save_creates_dirs_writes_and_propagates ⟨false, [], []⟩ [⟨"BTCUSD", "1m", 10, []⟩]
      "data" "BTCUSD" "bitstamp" "1m" ⟨2018, 7, 14, 7, 30, 0⟩ ⟨2018, 7, 14, 7, 40, 0⟩).2 rfl⟩

/-! ## Time-bound conversion (`convert_to_nanoseconds`, main.py lines 259-265)

`convert_to_nanoseconds` does
`datetime.fromisoformat(iso_string.replace("Z", "+00:00"))` and then
`int(dt.timestamp() * 1_000_000_000)`.  The proleptic-Gregorian
day count (`daysFromCivil`) and its inverse (`civilFromDays`) embed the
calendar arithmetic CPython performs inside `timestamp()` /
`utcfromtimestamp()`; for whole-second instants in the program's range
the float multiplication by `1e9` followed by `int` truncation is
exact, so it is embedded as integer multiplication. -/

/-- Days since 1970-01-01 of the civil date `(y, m, d)`
(proleptic Gregorian calendar). -/
def daysFromCivil (y0 m d : Int) : Int :=
  let y := if m ≤ 2 then y0 - 1 else y0
  let era := (if 0 ≤ y then y else y - 399) / 400
  let yoe := y - era * 400
  let mp := if 2 < m then m - 3 else m + 9
  let doy := (153 * mp + 2) / 5 + d - 1
  let doe := yoe * 365 + yoe / 4 - yoe / 100 + doy
  era * 146097 + doe - 719468

/-- Civil date `(y, m, d)` of the day `z` days after 1970-01-01
(proleptic Gregorian calendar, inverse of `daysFromCivil`). -/
def civilFromDays (z0 : Int) : Int × Int × Int :=
  let z := z0 + 719468
  let era := (if 0 ≤ z then z else z - 146096) / 146097
  let doe := z - era * 146097
  let yoe := (doe - doe / 1460 + doe / 36524 - doe / 146096) / 365
  let y := yoe + era * 400
  let doy := doe - (365 * yoe + yoe / 4 - yoe / 100)
  let mp := (5 * doy + 2) / 153
  let d := doy - (153 * mp + 2) / 5 + 1
  let m := if mp < 10 then mp + 3 else mp - 9
  (if m ≤ 2 then y + 1 else y, m, d)

/-- Seconds since the epoch of a naive UTC `datetime`
(what `dt.timestamp()` returns for a `+00:00`-offset datetime). -/
def epochSeconds (dt : DateTime) : Int :=
  86400 * daysFromCivil dt.year dt.month dt.day
    + 3600 * (dt.hour : Int) + 60 * (dt.minute : Int) + (dt.second : Int)

/-- Nanoseconds since the epoch: `int(dt.timestamp() * 1_000_000_000)`
(exact for the whole-second instants this program converts). -/
def timestampNanoseconds (dt : DateTime) : Int :=
  epochSeconds dt * 1000000000

/-- `datetime.utcfromtimestamp(ns / 1_000_000_000)` for a whole-second
nanosecond count: the naive UTC datetime of that instant. -/
def utcFromTimestampNs (ns : Int) : DateTime :=
  let secs := ns / 1000000000
  let days := secs / 86400
  let sod := secs % 86400
  let ymd := civilFromDays days
  ⟨ymd.1.toNat, ymd.2.1.toNat, ymd.2.2.toNat,
    (sod / 3600).toNat, (sod % 3600 / 60).toNat, (sod % 60).toNat⟩

/-- `iso_string.replace("Z", "+00:00")` on the character list. -/
def replaceZ : List Char → List Char
  | [] => []
  | c :: rest =>
    if c = 'Z' then '+' :: '0' :: '0' :: ':' :: '0' :: '0' :: replaceZ rest
    else c :: replaceZ rest

/-- Is `c` a decimal digit character? -/
def isDigitChar (c : Char) : Bool := 48 ≤ c.toNat && c.toNat ≤ 57

/-- Numeric value of a decimal digit character. -/
def digitVal (c : Char) : Nat := c.toNat - 48

/-- `datetime.fromisoformat` restricted to the shape this program
feeds it: `YYYY-MM-DDTHH:MM:SS+00:00` (the result of replacing a
trailing `Z` by `+00:00`), with the field-range validation
`fromisoformat` performs.  Returns `none` where CPython raises
`ValueError`. -/
def fromisoformatUTC (cs : List Char) : Option DateTime :=
  match cs with
  | [y1, y2, y3, y4, c1, m1, m2, c2, d1, d2, t1, h1, h2, c3, n1, n2, c4, s1, s2,
      p1, z1, z2, c5, z3, z4] =>
    if (c1 == '-') && (c2 == '-') && (t1 == 'T') && (c3 == ':') && (c4 == ':')
        && (p1 == '+') && (z1 == '0') && (z2 == '0') && (c5 == ':')
        && (z3 == '0') && (z4 == '0')
        && [y1, y2, y3, y4, m1, m2, d1, d2, h1, h2, n1, n2, s1, s2].all isDigitChar then
      let year := 1000 * digitVal y1 + 100 * digitVal y2 + 10 * digitVal y3 + digitVal y4
      let month := 10 * digitVal m1 + digitVal m2
      let day := 10 * digitVal d1 + digitVal d2
      let hour := 10 * digitVal h1 + digitVal h2
      let minute := 10 * digitVal n1 + digitVal n2
      let second := 10 * digitVal s1 + digitVal s2
      if 1 ≤ month ∧ month ≤ 12 ∧ 1 ≤ day ∧ day ≤ 31
          ∧ hour ≤ 23 ∧ minute ≤ 59 ∧ second ≤ 59 then
        some ⟨year, month, day, hour, minute, second⟩
      else none
    else none
  | _ => none

/-- Embedding of `convert_to_nanoseconds(iso_string)`: replace a
trailing `Z` by `+00:00`, parse with `fromisoformat`, and turn the
resulting instant into integer nanoseconds since the epoch.  `none`
models the `ValueError` CPython raises on an unparsable string. -/
def convert_to_nanoseconds (s : String) : Option Int :=
  (fromisoformatUTC (replaceZ s.data)).map timestampNanoseconds

/-- Claim C6: `convert_to_nanoseconds` maps an ISO-8601 UTC string
(trailing `Z` treated as the UTC offset) to nanoseconds since the epoch
as the epoch-second timestamp scaled by `10^9` (the truncation of the
float product is exact here); in particular
`"2018-07-14T07:30:00Z"` maps to `1531553400000000000`. -/
theorem convert_to_nanoseconds_spec :
    convert_to_nanoseconds "2018-07-14T07:30:00Z" = some 1531553400000000000
    ∧ ∀ (s : String) (dt : DateTime), fromisoformatUTC (replaceZ s.data) = some dt →
        convert_to_nanoseconds s = some (epochSeconds dt * 1000000000) := by
  constructor
  · decide
  · intro s dt h
    simp [convert_to_nanoseconds, h, timestampNanoseconds]

/-- Witness for C6: the concrete string `"2018-07-14T07:30:00Z"`
parses to 2018-07-14 07:30:00 and converts to its epoch-second count
times `10^9`. -/
theorem convert_to_nanoseconds_spec_witness :
    convert_to_nanoseconds "2018-07-14T07:30:00Z"
      = some (epochSeconds ⟨2018, 7, 14, 7, 30, 0⟩ * 1000000000) :=
  (convert_to_nanoseconds_spec).2 "2018-07-14T07:30:00Z" ⟨2018, 7, 14, 7, 30, 0⟩ (by decide)

/-! ## The orchestrator (`fetch_and_save_data`, main.py lines 130-205)

The outside world is an `Env`: the config file at the given path,
whether `psycopg2.connect` would succeed, whether executing the query
would succeed, the contents of the `bitstamp_data` table, and the
filesystem.  The result carries the returned value (`Except` for a
propagated exception, `Option` for Python's `None`), the final
filesystem, and the trace of logging and I/O events. -/

/-- Logging and I/O events of one invocation, in order. -/
inductive Event where
  | logConfigError
  | connectAttempt
  | logConnectError
  | queryRun
  | logQueryError
  | logNoData
  | logFetched (n : Nat)
  | logSaved (path : String)
deriving DecidableEq, Repr

/-- The outside world of one invocation. -/
structure Env where
  config : ConfigFile
  connectOk : Bool
  queryOk : Bool
  table : List Row
  fs : FS
deriving DecidableEq, Repr

/-- Value returned (or exception propagated), final filesystem state,
and event trace of one `fetch_and_save_data` invocation. -/
structure FetchResult where
  outcome : Except PyError (Option DataFrame)
  fs : FS
  events : List Event
deriving Repr

/-- Embedding of `query_postgres_db` (main.py lines 66-86): executes
the query and returns all rows; on a database error it logs the error
and returns the empty list instead of raising. -/
def query_postgres_db (queryOk : Bool) (q : Query) (table : List Row) :
    List Row × List Event :=
  if queryOk then (runQuery q table, [Event.queryRun])
  else ([], [Event.queryRun, Event.logQueryError])

/-- Embedding of `fetch_and_save_data` (main.py lines 130-205):
loads the config (returning `None` on any config error, logged),
connects (returning `None` on connection failure, logged), runs the
query, and either logs "no data" and returns `None`, or builds the
DataFrame, saves it under the nested folder path, and returns it.
A filesystem error inside the save propagates. -/
def fetch_and_save_data (env : Env) (symbol broker timeframe : String)
    (start_ns end_ns : Int) (data_root : String) : FetchResult :=
  match db_config env.config with
  | Except.error _ => ⟨Except.ok none, env.fs, [Event.logConfigError]⟩
  | Except.ok _ =>
    if env.connectOk = false then
      ⟨Except.ok none, env.fs, [Event.connectAttempt, Event.logConnectError]⟩
    else
      let q := mkQuery symbol timeframe start_ns end_ns
      let qres := query_postgres_db env.queryOk q env.table
      let rows := qres.1
      if rows.isEmpty then
        ⟨Except.ok none, env.fs, Event.connectAttempt :: qres.2 ++ [Event.logNoData]⟩
      else
        let df : DataFrame := rows
        let start_dt := utcFromTimestampNs start_ns
        let end_dt := utcFromTimestampNs end_ns
        match save_data_to_nested_folders env.fs df data_root symbol broker timeframe
            start_dt end_dt with
        | Except.ok (fs₂, path) =>
          ⟨Except.ok (some df), fs₂,
            Event.connectAttempt :: qres.2 ++ [Event.logFetched rows.length, Event.logSaved path]⟩
        | Except.error e =>
          ⟨Except.error e, env.fs,
            Event.connectAttempt :: qres.2 ++ [Event.logFetched rows.length]⟩

/-- A config file holding exactly the five required keys, used by the
concrete witnesses below. -/
def goodConfig : ConfigFile :=
  ⟨true, [("host", "h"), ("port", "5432"), ("dbname", "d"), ("user", "u"), ("password", "p")]⟩

/-- With equal bounds the half-open selection is empty. -/
theorem runQuery_eq_bounds_empty (S T : String) (s : Int) (table : List Row) :
    runQuery (mkQuery S T s s) table = [] := by
  have hf : table.filter (rowMatches (mkQuery S T s s)) = [] := by
    rw [List.filter_eq_nil_iff]
    intro r _
    simp only [rowMatches, mkQuery, Bool.and_eq_true, beq_iff_eq, decide_eq_true_eq, not_and]
    intro _ h2
    omega
  rw [runQuery, hf, List.mergeSort_nil]

/-- Counterexample to claim C2 as stated: on a missing config file the
invocation does not propagate any error — `fetch_and_save_data`
returns normally with `None` (`Except.ok none`), so the configuration
error never surfaces to the process boundary. -/
theorem config_error_swallowed_counterexample :
    (fetch_and_save_data ⟨⟨false, []⟩, true, true, [], ⟨true, [], []⟩⟩
        "BTCUSD" "bitstamp" "1m" 0 10 "data").outcome = Except.ok none := rfl

/-- Claim C2 (amended): a configuration error (missing file or missing
required key) still aborts before any database work — no connection is
attempted, nothing is written — but it is swallowed rather than
propagated: the error is logged and `fetch_and_save_data` returns
`None` to its caller instead of raising. -/
theorem config_error_aborts_but_is_swallowed (env : Env)
    (symbol broker timeframe : String) (start_ns end_ns : Int) (data_root : String)
    (er : PyError) (herr : db_config env.config = Except.error er) :
    fetch_and_save_data env symbol broker timeframe start_ns end_ns data_root
      = ⟨Except.ok none, env.fs, [Event.logConfigError]⟩ := by
  unfold fetch_and_save_data
  rw [herr]

/-- Witness for amended C2: a config file missing `password` leads to a
logged error, no connection attempt, and a `None` return. -/
theorem config_error_aborts_but_is_swallowed_witness :
    fetch_and_save_data ⟨⟨true, [("host", "h"), ("port", "5432"), ("dbname", "d"), ("user", "u")]⟩,
        true, true, [], ⟨true, [], []⟩⟩ "BTCUSD" "bitstamp" "1m" 0 10 "data"
      = ⟨Except.ok none, ⟨true, [], []⟩, [Event.logConfigError]⟩ :=
  config_error_aborts_but_is_swallowed
    ⟨⟨true, [("host", "h"), ("port", "5432"), ("dbname", "d"), ("user", "u")]⟩,
        true, true, [], ⟨true, [], []⟩⟩
    "BTCUSD" "bitstamp" "1m" 0 10 "data" PyError.configInvalid (by rfl)

unseal List.merge List.mergeSort

/-- Counterexample to claim C3 as stated: with a reachable database
whose table is empty, the query runs and returns zero rows, yet the
caller receives the absent signal `None`, not an empty Result Table. -/
theorem empty_result_conflated_counterexample :
    (fetch_and_save_data ⟨goodConfig, true, true, [], ⟨true, [], []⟩⟩
        "BTCUSD" "bitstamp" "1m" 0 10 "data").outcome = Except.ok none
    ∧ (fetch_and_save_data ⟨goodConfig, true, true, [], ⟨true, [], []⟩⟩
        "BTCUSD" "bitstamp" "1m" 0 10 "data").outcome ≠ Except.ok (some []) := by
  have hout : (fetch_and_save_data ⟨goodConfig, true, true, [], ⟨true, [], []⟩⟩
      "BTCUSD" "bitstamp" "1m" 0 10 "data").outcome = Except.ok none := rfl
  refine ⟨hout, ?_⟩
  rw [hout]
  intro h
  exact Option.noConfusion (Except.ok.inj h)

/-- Claim C3 (amended): whenever the query executes and returns zero
rows the caller receives the absent signal `None` — the same value it
receives on connection failure, so empty and absent are conflated and
callers cannot distinguish the two states from the return value. -/
theorem zero_rows_returns_absent_signal (env : Env)
    (symbol broker timeframe : String) (start_ns end_ns : Int) (data_root : String)
    (ps : Params) (hcfg : db_config env.config = Except.ok ps)
    (hconn : env.connectOk = true)
    (hrows : (query_postgres_db env.queryOk (mkQuery symbol timeframe start_ns end_ns)
        env.table).1 = []) :
    (fetch_and_save_data env symbol broker timeframe start_ns end_ns data_root).outcome
        = Except.ok none
    ∧ (fetch_and_save_data env symbol broker timeframe start_ns end_ns data_root).outcome
        = (fetch_and_save_data { env with connectOk := false }
            symbol broker timeframe start_ns end_ns data_root).outcome := by
  have h1 : (fetch_and_save_data env symbol broker timeframe start_ns end_ns data_root).outcome
      = Except.ok none := by
    unfold fetch_and_save_data
    rw [hcfg]
    simp [hconn, hrows]
  have h2 : (fetch_and_save_data { env with connectOk := false }
      symbol broker timeframe start_ns end_ns data_root).outcome = Except.ok none := by
    unfold fetch_and_save_data
    rw [hcfg]
    simp
  exact ⟨h1, h1.trans h2.symm⟩

/-- Witness for amended C3: empty table, reachable database — the
caller gets `None`, exactly as when the connection fails. -/
theorem zero_rows_returns_absent_signal_witness :
    (fetch_and_save_data ⟨goodConfig, true, true, [], ⟨true, [], []⟩⟩
        "BTCUSD" "bitstamp" "1m" 0 10 "data").outcome = Except.ok none
    ∧ (fetch_and_save_data ⟨goodConfig, true, true, [], ⟨true, [], []⟩⟩
        "BTCUSD" "bitstamp" "1m" 0 10 "data").outcome
      = (fetch_and_save_data ⟨goodConfig, false, true, [], ⟨true, [], []⟩⟩
        "BTCUSD" "bitstamp" "1m" 0 10 "data").outcome :=
  zero_rows_returns_absent_signal ⟨goodConfig, true, true, [], ⟨true, [], []⟩⟩
    "BTCUSD" "bitstamp" "1m" 0 10 "data" goodConfig.entries (by rfl) rfl
    (by simp [query_postgres_db, runQuery, List.mergeSort_nil])

/-- Claim C4: if opening the database connection fails, the operation
logs the error and returns the absent signal `None` without raising,
and no file is written (the filesystem is unchanged). -/
theorem connection_failure_soft (env : Env)
    (symbol broker timeframe : String) (start_ns end_ns : Int) (data_root : String)
    (ps : Params) (hcfg : db_config env.config = Except.ok ps)
    (hconn : env.connectOk = false) :
    fetch_and_save_data env symbol broker timeframe start_ns end_ns data_root
      = ⟨Except.ok none, env.fs, [Event.connectAttempt, Event.logConnectError]⟩ := by
  unfold fetch_and_save_data
  rw [hcfg]
  simp [hconn]

/-- Witness for C4: unreachable database at a concrete environment —
logged connection error, `None` returned, filesystem untouched. -/
theorem connection_failure_soft_witness :
    fetch_and_save_data ⟨goodConfig, false, true, [⟨"BTCUSD", "1m", 5, []⟩], ⟨true, [], []⟩⟩
        "BTCUSD" "bitstamp" "1m" 0 10 "data"
      = ⟨Except.ok none, ⟨true, [], []⟩, [Event.connectAttempt, Event.logConnectError]⟩ :=
  connection_failure_soft ⟨goodConfig, false, true, [⟨"BTCUSD", "1m", 5, []⟩], ⟨true, [], []⟩⟩
    "BTCUSD" "bitstamp" "1m" 0 10 "data" goodConfig.entries (by rfl) rfl

/-- Claim C7: whenever the gateway yields zero rows — in particular for
any interval with `start_ns = end_ns`, which matches no rows under the
half-open semantics — the orchestrator logs "no data", skips
persistence entirely (the filesystem, hence directories and files, is
unchanged), and returns the absent signal to the caller. -/
theorem no_data_skips_persistence (env : Env)
    (symbol broker timeframe : String) (start_ns end_ns : Int) (data_root : String)
    (ps : Params) (hcfg : db_config env.config = Except.ok ps)
    (hconn : env.connectOk = true)
    (hempty : start_ns = end_ns
      ∨ (query_postgres_db env.queryOk (mkQuery symbol timeframe start_ns end_ns)
          env.table).1 = []) :
    (fetch_and_save_data env symbol broker timeframe start_ns end_ns data_root).outcome
        = Except.ok none
    ∧ (fetch_and_save_data env symbol broker timeframe start_ns end_ns data_root).fs = env.fs
    ∧ Event.logNoData
        ∈ (fetch_and_save_data env symbol broker timeframe start_ns end_ns data_root).events := by
  have hrows : (query_postgres_db env.queryOk (mkQuery symbol timeframe start_ns end_ns)
      env.table).1 = [] := by
    rcases hempty with heq | hr
    · subst heq
      unfold query_postgres_db
      cases env.queryOk
      · simp
      · simp [runQuery_eq_bounds_empty]
    · exact hr
  unfold fetch_and_save_data
  rw [hcfg]
  simp [hconn, hrows]

/-- Witness for C7: equal bounds on a nonempty table — `None` returned,
filesystem untouched, "no data" logged. -/
theorem no_data_skips_persistence_witness :
    (fetch_and_save_data ⟨goodConfig, true, true, [⟨"BTCUSD", "1m", 5, []⟩], ⟨true, [], []⟩⟩
        "BTCUSD" "bitstamp" "1m" 5 5 "data").outcome = Except.ok none
    ∧ (fetch_and_save_data ⟨goodConfig, true, true, [⟨"BTCUSD", "1m", 5, []⟩], ⟨true, [], []⟩⟩
        "BTCUSD" "bitstamp" "1m" 5 5 "data").fs = ⟨true, [], []⟩
    ∧ Event.logNoData
        ∈ (fetch_and_save_data ⟨goodConfig, true, true, [⟨"BTCUSD", "1m", 5, []⟩], ⟨true, [], []⟩⟩
            "BTCUSD" "bitstamp" "1m" 5 5 "data").events :=
  no_data_skips_persistence ⟨goodConfig, true, true, [⟨"BTCUSD", "1m", 5, []⟩], ⟨true, [], []⟩⟩
    "BTCUSD" "bitstamp" "1m" 5 5 "data" goodConfig.entries (by rfl) rfl (Or.inl rfl)

end PullingData
